import Mathlib

/-!
Shallow embedding of `pkg/controller/backup_controller.go` from jspenc72/ark.

The controller's external collaborators (informer lister, patch client,
plugin manager, Backupper, backup store, metrics sink, clock) are modelled
by an oracle structure `Collab` holding the outcome each collaborator
returns when called, and the controller's observable actions are recorded
in an ordered `List Effect`.  Go pointer mutation of the `*api.Backup` is
modelled by explicit state passing.
-/

namespace Ark

/-- `api.BackupPhase`: `""` (empty), New, InProgress, FailedValidation,
Completed, Failed. -/
inductive BackupPhase where
  | empty
  | new
  | inProgress
  | failedValidation
  | completed
  | failed
deriving DecidableEq

/-- `api.BackupSpec`, restricted to the fields the controller reads or
writes.  `ttl` is the TTL duration (`Spec.TTL.Duration`), as an integer
number of clock units. -/
structure BackupSpec where
  ttl : Int
  storageLocation : String
  includedResources : List String
  excludedResources : List String
  includedNamespaces : List String
  excludedNamespaces : List String
  snapshotVolumes : Option Bool
deriving DecidableEq

/-- `api.BackupStatus`, restricted to the fields the controller touches.
`metav1.Time` zero values are modelled as `none`. -/
structure BackupStatus where
  phase : BackupPhase
  version : Nat
  validationErrors : List String
  expiration : Option Int
  startTimestamp : Option Int
  completionTimestamp : Option Int
deriving DecidableEq

/-- `api.Backup`: identity, spec, status, labels.  The Go label map may be
nil, modelled as `none`; otherwise an association list. -/
structure Backup where
  ns : String
  name : String
  spec : BackupSpec
  status : BackupStatus
  labels : Option (List (String × String))
deriving DecidableEq

/-- `api.BackupStorageLocation`, opaque to this controller apart from its
identity. -/
structure BackupStorageLocation where
  ns : String
  name : String
deriving DecidableEq

/-- `api.StorageLocationLabel` (the label key written by validation). -/
def StorageLocationLabel : String := "ark.heptio.com/storage-location"

/-- `const backupVersion = 1`. -/
def backupVersion : Nat := 1

/-- Go map assignment `labels[k] = v` on an association list: the new
binding shadows (replaces) any previous binding of `k`. -/
def setLabel (l : List (String × String)) (k v : String) : List (String × String) :=
  (k, v) :: l.filter (fun p => p.1 != k)

/-- Go map read `labels[k]` with the zero value `""` for a missing key or a
nil map (`backup.GetLabels()["ark-schedule"]`). -/
def getLabel (b : Backup) (k : String) : String :=
  match b.labels with
  | none => ""
  | some l => ((l.find? (fun p => p.1 == k)).map Prod.snd).getD ""

/-- Observable side effects of one `processBackup` call, in program order. -/
inductive Effect where
  /-- `patchBackup(original, updated, client)` submitted a merge patch;
  `ok` records whether the API call succeeded. -/
  | patchSubmitted (ok : Bool) (original updated : Backup)
  /-- `backupTracker.Add(ns, name)`. -/
  | trackerAdd (ns name : String)
  /-- `backupTracker.Delete(ns, name)` (deferred). -/
  | trackerDelete (ns name : String)
  /-- `metrics.RegisterBackupAttempt(schedule)`. -/
  | metricAttempt (schedule : String)
  /-- `metrics.RegisterBackupSuccess(schedule)`. -/
  | metricSuccess (schedule : String)
  /-- `metrics.RegisterBackupFailed(schedule)`. -/
  | metricFailed (schedule : String)
  /-- `metrics.SetBackupTarballSizeBytesGauge(schedule, bytes)`. -/
  | metricSize (schedule : String) (bytes : Int)
  /-- `metrics.RegisterBackupDuration(schedule, dur)`; `dur` is the raw
  completion − start difference (the Go seconds conversion is elided). -/
  | metricDuration (schedule : String) (dur : Int)
  /-- `c.backupper.Backup(log, backup, backupFile, actions)` was invoked. -/
  | backupperInvoked
  /-- `encode.EncodeTo(backup, "json", backupJSON)` was attempted. -/
  | encodeAttempted
  /-- `backupFile.Stat()` was attempted. -/
  | statAttempted
  /-- the explicit `gzippedLogFile.Close()` before upload. -/
  | logClosed
  /-- `backupStore.PutBackup(name, manifest, archive, log)` was invoked;
  `manifest` is the backup snapshot encoded into the JSON buffer (`none`
  when encoding failed, so nothing was marked eligible for upload), and
  `archiveEligible` says whether the tarball reader was non-nil. -/
  | putBackupInvoked (name : String) (manifest : Option Backup) (archiveEligible : Bool)
deriving DecidableEq

/-- Oracle for the external collaborators: outcome of each call
`processBackup`/`runBackup` makes, plus the clock readings returned by
successive `c.clock.Now()` calls (`clockTimes[i]` is the i-th reading,
defaulting to 0). -/
structure Collab where
  splitOk : Bool
  getResult : Option Backup
  firstPatchOk : Bool
  secondPatchOk : Bool
  locationFound : Bool
  logTempFileOk : Bool
  backupTempFileOk : Bool
  getActionsOk : Bool
  newBackupStoreOk : Bool
  backupperOk : Bool
  encodeOk : Bool
  statOk : Bool
  statSize : Int
  putBackupOk : Bool
  clockTimes : List Int
deriving DecidableEq

/-- Controller configuration relevant to the modelled code paths. -/
structure Config where
  pvProviderExists : Bool
  defaultBackupLocation : String
deriving DecidableEq

/-- The i-th reading of `c.clock.Now()`. -/
def clockAt (w : Collab) (i : Nat) : Int := w.clockTimes.getD i 0

/-- The `switch backup.Status.Phase { case "", api.BackupPhaseNew: ... }`
gate: only empty/New phases are processed. -/
def isNewOrEmpty : BackupPhase → Bool
  | .empty => true
  | .new => true
  | _ => false

/-- Modelled from the spec: `collections.ValidateIncludesExcludes` is not
under `src/` (only its caller is).  Per the spec, the included/excluded
lists are contradictory when the same name appears in both lists or when
`"*"` co-occurs with an explicit name; every error found is returned
(multi-error accumulation, not fail-fast). -/
def ValidateIncludesExcludes (includes excludes : List String) : List String :=
  (if includes.contains "*" && includes.any (fun n => n != "*") then
    ["includes list must not contain * together with explicit names"] else []) ++
  (if excludes.contains "*" && excludes.any (fun n => n != "*") then
    ["excludes list must not contain * together with explicit names"] else []) ++
  (includes.filter (fun n => excludes.contains n)).map
    (fun n => "name appears in both includes and excludes: " ++ n)

/-- The contradiction condition of the claim: the same name appears in both
lists, or `"*"` co-occurs with an explicit name in one list. -/
def contradictory (includes excludes : List String) : Bool :=
  includes.any (fun n => excludes.contains n) ||
  (includes.contains "*" && includes.any (fun n => n != "*")) ||
  (excludes.contains "*" && excludes.any (fun n => n != "*"))

/-- Result of `getLocationAndValidate`: the mutated backup (Go mutates
`itm` through the pointer), the resolved location (nil on lookup failure),
and the accumulated validation errors. -/
structure ValOut where
  itm : Backup
  loc : Option BackupStorageLocation
  errs : List String
deriving DecidableEq

/-- `(c *backupController) getLocationAndValidate(itm, defaultBackupLocation)`.
Validates the resource and namespace include/exclude lists and the
snapshot-volumes flag, defaults the storage location, writes the
storage-location label, and looks up the location (lookup outcome given by
`locationFound`). -/
def getLocationAndValidate (cfg : Config) (locationFound : Bool) (itm : Backup) : ValOut :=
  let validationErrors :=
    (ValidateIncludesExcludes itm.spec.includedResources itm.spec.excludedResources).map
      (fun e => "Invalid included/excluded resource lists: " ++ e) ++
    (ValidateIncludesExcludes itm.spec.includedNamespaces itm.spec.excludedNamespaces).map
      (fun e => "Invalid included/excluded namespace lists: " ++ e) ++
    (if !cfg.pvProviderExists && itm.spec.snapshotVolumes == some true then
      ["Server is not configured for PV snapshots"] else [])
  let itm :=
    if itm.spec.storageLocation = "" then
      { itm with spec := { itm.spec with storageLocation := cfg.defaultBackupLocation } }
    else itm
  let itm := { itm with labels := some (setLabel (itm.labels.getD []) StorageLocationLabel itm.spec.storageLocation) }
  if locationFound then
    { itm := itm, loc := some ⟨itm.ns, itm.spec.storageLocation⟩, errs := validationErrors }
  else
    { itm := itm, loc := none,
      errs := validationErrors ++ ["Error getting backup storage location"] }

/-- The part of `processBackup` between the deep copy and the first patch:
stamp `Status.Version`, stamp `Status.Expiration` when `Spec.TTL > 0`
(consuming one clock reading), run `getLocationAndValidate`, store the
validation errors and pick InProgress/FailedValidation.  Returns the
mutated backup, the resolved location and the next clock index. -/
structure PrepOut where
  b : Backup
  loc : Option BackupStorageLocation
  ci : Nat
deriving DecidableEq

/-- Lines 173–179: `backup.Status.Version = backupVersion`, then when
`Spec.TTL.Duration > 0` stamp `Status.Expiration = clock.Now() + TTL`,
consuming one clock reading.  Returns the stamped backup and the next
clock index. -/
def stampVersionAndExpiration (w : Collab) (b0 : Backup) : Backup × Nat :=
  let b := { b0 with status := { b0.status with version := backupVersion } }
  if b.spec.ttl > 0 then
    ({ b with status := { b.status with expiration := some (clockAt w 0 + b.spec.ttl) } }, 1)
  else (b, 0)

def prepare (cfg : Config) (w : Collab) (b0 : Backup) : PrepOut :=
  let stamped := stampVersionAndExpiration w b0
  let v := getLocationAndValidate cfg w.locationFound stamped.1
  let b := { v.itm with status := { v.itm.status with
    validationErrors := v.errs,
    phase := if v.errs.isEmpty then .inProgress else .failedValidation } }
  { b := b, loc := v.loc, ci := stamped.2 }

/-- Result of `runBackup`: the backup object as mutated through the
pointer, whether a non-nil error was returned, the effects in order, and
the next clock index. -/
structure RunOut where
  b : Backup
  isErr : Bool
  effects : List Effect
  ci : Nat
deriving DecidableEq

/-- `setupOk`: none of the early-return setup steps of `runBackup` failed
(log temp file, backup temp file, `GetBackupItemActions`,
`newBackupStore`). -/
def setupOk (w : Collab) : Bool :=
  w.logTempFileOk && w.backupTempFileOk && w.getActionsOk && w.newBackupStoreOk

/-- `(c *backupController) runBackup(backup, backupLocation)`.  Stamps the
start timestamp, performs setup (each failure returns the error
immediately), then runs the Backupper, stamps completion, encodes the
manifest, stats the tarball, closes the gzipped log, uploads, records the
size and duration metrics, and returns the aggregated error list
(non-empty iff some collected step failed). -/
def runBackup (w : Collab) (b0 : Backup) (ci : Nat) : RunOut :=
  let b := { b0 with status := { b0.status with startTimestamp := some (clockAt w ci) } }
  let ci := ci + 1
  if !w.logTempFileOk then { b := b, isErr := true, effects := [], ci := ci }
  else if !w.backupTempFileOk then { b := b, isErr := true, effects := [], ci := ci }
  else if !w.getActionsOk then { b := b, isErr := true, effects := [], ci := ci }
  else if !w.newBackupStoreOk then { b := b, isErr := true, effects := [], ci := ci }
  else
    let b := { b with status := { b.status with
      phase := if w.backupperOk then .completed else .failed } }
    let errs1 : List String := if w.backupperOk then [] else ["backupper error"]
    let b := { b with status := { b.status with completionTimestamp := some (clockAt w ci) } }
    let ci := ci + 1
    let manifest : Option Backup := if w.encodeOk then some b else none
    let archiveEligible : Bool := w.encodeOk
    let errs2 : List String := if w.encodeOk then [] else ["error encoding backup"]
    let size : Int := if w.statOk then w.statSize else 0
    let errs3 : List String := if w.statOk then [] else ["error getting file info"]
    let errs4 : List String := if w.putBackupOk then [] else ["putBackup error"]
    let sched := getLabel b "ark-schedule"
    let dur := (b.status.completionTimestamp.getD 0) - (b.status.startTimestamp.getD 0)
    { b := b,
      isErr := !(errs1 ++ errs2 ++ errs3 ++ errs4).isEmpty,
      effects := [Effect.backupperInvoked, Effect.encodeAttempted, Effect.statAttempted,
        Effect.logClosed, Effect.putBackupInvoked b.name manifest archiveEligible,
        Effect.metricSize sched size, Effect.metricDuration sched dur],
      ci := ci }

/-- Result of `processBackup`: the returned error (`none` = nil) and the
observable effects in order. -/
structure ProcOut where
  retErr : Option String
  effects : List Effect
deriving DecidableEq

/-- `(c *backupController) processBackup(key)`.  Split the key, fetch the
backup, gate on phase, prepare (version/expiration/validation/phase),
patch to InProgress or FailedValidation, and on the InProgress path track,
record the attempt metric, run the pipeline, decide the terminal phase,
patch it (failure only logged), and untrack. -/
def processBackup (cfg : Config) (w : Collab) : ProcOut :=
  if !w.splitOk then { retErr := some "error splitting queue key", effects := [] }
  else
    match w.getResult with
    | none => { retErr := some "error getting backup", effects := [] }
    | some backup0 =>
      if isNewOrEmpty backup0.status.phase then
        let p := prepare cfg w backup0
        let eff1 := Effect.patchSubmitted w.firstPatchOk backup0 p.b
        if !w.firstPatchOk then
          { retErr := some "error updating Backup status", effects := [eff1] }
        else if p.b.status.phase = .failedValidation then
          { retErr := none, effects := [eff1] }
        else
          let sched := getLabel p.b "ark-schedule"
          let r := runBackup w p.b p.ci
          let final :=
            if r.isErr then { r.b with status := { r.b.status with phase := .failed } }
            else r.b
          let outEff := if r.isErr then Effect.metricFailed sched else Effect.metricSuccess sched
          { retErr := none,
            effects := [eff1, Effect.trackerAdd p.b.ns p.b.name, Effect.metricAttempt sched]
              ++ r.effects
              ++ [outEff, Effect.patchSubmitted w.secondPatchOk p.b final,
                  Effect.trackerDelete p.b.ns p.b.name] }
      else { retErr := none, effects := [] }

/-- The `updated` object carried by a patch-submission effect. -/
def patchUpdated : Effect → Option Backup
  | .patchSubmitted _ _ u => some u
  | _ => none

/-- The last object submitted to the store by a merge patch during this
reconcile (the terminal cluster-state status when the run patched twice). -/
def finalObject (o : ProcOut) : Option Backup :=
  (o.effects.filterMap patchUpdated).getLast?

/-- The phase recorded inside the first manifest handed to `PutBackup`
during a pipeline run (`none` when no upload carried a manifest). -/
def manifestPhase (effects : List Effect) : Option BackupPhase :=
  (effects.filterMap (fun e =>
    match e with
    | .putBackupInvoked _ (some m) _ => some m.status.phase
    | _ => none)).head?

/-- Effect classifiers used in statements about which pipeline steps ran. -/
def isPutBackup : Effect → Bool
  | .putBackupInvoked _ _ _ => true
  | _ => false

def isMetricSize : Effect → Bool
  | .metricSize _ _ => true
  | _ => false

def isMetricAttempt : Effect → Bool
  | .metricAttempt _ => true
  | _ => false

/-! ## Concrete sample inputs used by witnesses and counterexamples -/

/-- A fresh ad hoc backup request in phase New with a 100-unit TTL and no
include/exclude constraints. -/
def bSample : Backup :=
  { ns := "heptio-ark", name := "bk1",
    spec := { ttl := 100, storageLocation := "", includedResources := [],
              excludedResources := [], includedNamespaces := [],
              excludedNamespaces := [], snapshotVolumes := none },
    status := { phase := .new, version := 0, validationErrors := [],
                expiration := none, startTimestamp := none,
                completionTimestamp := none },
    labels := none }

/-- A collaborator oracle where every external call succeeds and the clock
reads 0, 1, 2 on successive calls. -/
def wAllOk (b : Backup) : Collab :=
  { splitOk := true, getResult := some b, firstPatchOk := true,
    secondPatchOk := true, locationFound := true, logTempFileOk := true,
    backupTempFileOk := true, getActionsOk := true, newBackupStoreOk := true,
    backupperOk := true, encodeOk := true, statOk := true, statSize := 42,
    putBackupOk := true, clockTimes := [0, 1, 2] }

/-- A server configuration with a PV provider and default location. -/
def cfgSample : Config := { pvProviderExists := true, defaultBackupLocation := "default" }

/-- An effect recording a patch submission whose API call failed. -/
def isFailedPatch : Effect → Bool
  | .patchSubmitted ok _ _ => !ok
  | _ => false

/-! ## C1: idempotency gate -/

/-- **C1.** For every backup request whose status phase is anything other
than empty or New, `processBackup` returns success (nil) and performs no
side effects: no patch is submitted, no tracker registration, no metrics,
no pipeline execution. -/
theorem processBackup_nonNew_noop (cfg : Config) (w : Collab) (b : Backup)
    (hsplit : w.splitOk = true) (hget : w.getResult = some b)
    (hphase : isNewOrEmpty b.status.phase = false) :
    processBackup cfg w = { retErr := none, effects := [] } := by
  simp [processBackup, hsplit, hget, hphase]

def bInProgress : Backup :=
  { bSample with status := { bSample.status with phase := .inProgress } }

def wC1 : Collab := wAllOk bInProgress

/-- Witness for C1 at a concrete InProgress request. -/
theorem processBackup_nonNew_noop_witness :
    wC1.splitOk = true ∧ wC1.getResult = some bInProgress ∧
    isNewOrEmpty bInProgress.status.phase = false ∧
    processBackup cfgSample wC1 = { retErr := none, effects := [] } :=
  ⟨rfl, rfl, rfl, processBackup_nonNew_noop cfgSample wC1 bInProgress rfl rfl rfl⟩

/-! ## C6: decode / not-found handling -/

def wNotFound : Collab := { wAllOk bSample with getResult := none }

/-- **C6 counterexample.** When the backup cannot be fetched,
`processBackup` does NOT return success: it returns a non-nil wrapped
error (which the work queue surfaces), refuting the claim that the item is
dropped with a nil return. -/
theorem processBackup_notFound_returnsError :
    (processBackup cfgSample wNotFound).retErr = some "error getting backup" ∧
    (processBackup cfgSample wNotFound).retErr ≠ none := by
  constructor <;> simp [processBackup, wNotFound, wAllOk]

/-- **C6 (amended).** For every work item whose backup cannot be fetched
or whose key cannot be decoded, `processBackup` returns a non-nil wrapped
error — surfacing the failure to the work queue rather than returning
success — and performs no side effects. -/
theorem processBackup_fetchFailure_surfaced (cfg : Config) (w : Collab)
    (h : w.splitOk = false ∨ w.getResult = none) :
    (processBackup cfg w).retErr.isSome = true ∧
    (processBackup cfg w).effects = [] := by
  rcases h with h | h
  · simp [processBackup, h]
  · cases hs : w.splitOk <;> simp [processBackup, h, hs]

/-- Witness for the amended C6 at a concrete not-found input. -/
theorem processBackup_fetchFailure_surfaced_witness :
    (wNotFound.splitOk = false ∨ wNotFound.getResult = none) ∧
    (processBackup cfgSample wNotFound).retErr.isSome = true ∧
    (processBackup cfgSample wNotFound).effects = [] :=
  ⟨Or.inr rfl, processBackup_fetchFailure_surfaced cfgSample wNotFound (Or.inr rfl)⟩

/-! ## C7: terminal-phase patch failure is not surfaced -/

/-- **C7.** When the second (terminal-phase) status patch fails, the
failure is only logged and not surfaced: `processBackup` still returns nil
even though a failed patch submission is among the effects. -/
theorem processBackup_terminalPatchFailure_notSurfaced (cfg : Config) (w : Collab)
    (b : Backup) (hsplit : w.splitOk = true) (hget : w.getResult = some b)
    (hphase : isNewOrEmpty b.status.phase = true) (hp1 : w.firstPatchOk = true)
    (hval : (prepare cfg w b).b.status.phase ≠ BackupPhase.failedValidation)
    (hp2 : w.secondPatchOk = false) :
    (processBackup cfg w).retErr = none ∧
    (processBackup cfg w).effects.any isFailedPatch = true := by
  simp [processBackup, hsplit, hget, hphase, hp1, hval, isFailedPatch, hp2]

def bC7 : Backup := bSample

def wC7 : Collab := { wAllOk bC7 with secondPatchOk := false }

/-- Witness for C7: a run where everything succeeds except the terminal
patch. -/
theorem processBackup_terminalPatchFailure_notSurfaced_witness :
    wC7.splitOk = true ∧ wC7.getResult = some bC7 ∧
    isNewOrEmpty bC7.status.phase = true ∧ wC7.firstPatchOk = true ∧
    (prepare cfgSample wC7 bC7).b.status.phase ≠ BackupPhase.failedValidation ∧
    wC7.secondPatchOk = false ∧
    ((processBackup cfgSample wC7).retErr = none ∧
      (processBackup cfgSample wC7).effects.any isFailedPatch = true) :=
  ⟨rfl, rfl, rfl, rfl, by decide, rfl,
    processBackup_terminalPatchFailure_notSurfaced cfgSample wC7 bC7 rfl rfl rfl rfl
      (by decide) rfl⟩

/-! ## C8: storage-location defaulting and label write -/

/-- **C8.** Validation replaces an empty spec storage-location with the
configured default, and writes the effective storage-location name into
the mutated copy's labels — for every input, hence in particular when
validation errors are found and when the location lookup fails
(`found = false`). -/
theorem getLocationAndValidate_label (cfg : Config) (found : Bool) (itm : Backup) :
    (getLocationAndValidate cfg found itm).itm.spec.storageLocation =
      (if itm.spec.storageLocation = "" then cfg.defaultBackupLocation
        else itm.spec.storageLocation) ∧
    getLabel (getLocationAndValidate cfg found itm).itm StorageLocationLabel =
      (getLocationAndValidate cfg found itm).itm.spec.storageLocation := by
  by_cases hsl : itm.spec.storageLocation = "" <;>
    cases found <;>
      simp [getLocationAndValidate, getLabel, setLabel, hsl]

/-! ## Helper lemmas shared by several claims -/

theorem stamp_spec_eq (w : Collab) (b : Backup) :
    (stampVersionAndExpiration w b).1.spec = b.spec := by
  simp only [stampVersionAndExpiration]
  split <;> rfl

theorem stamp_identity (w : Collab) (b : Backup) :
    (stampVersionAndExpiration w b).1.ns = b.ns ∧
    (stampVersionAndExpiration w b).1.name = b.name := by
  simp only [stampVersionAndExpiration]
  split <;> exact ⟨rfl, rfl⟩

theorem getLocationAndValidate_identity (cfg : Config) (found : Bool) (itm : Backup) :
    (getLocationAndValidate cfg found itm).itm.ns = itm.ns ∧
    (getLocationAndValidate cfg found itm).itm.name = itm.name := by
  by_cases hsl : itm.spec.storageLocation = "" <;>
    cases found <;> simp [getLocationAndValidate, hsl]

theorem prepare_identity (cfg : Config) (w : Collab) (b : Backup) :
    (prepare cfg w b).b.ns = b.ns ∧ (prepare cfg w b).b.name = b.name := by
  have h1 := getLocationAndValidate_identity cfg w.locationFound (stampVersionAndExpiration w b).1
  have h2 := stamp_identity w b
  exact ⟨h1.1.trans h2.1, h1.2.trans h2.2⟩

theorem prepare_valErrs_eq (cfg : Config) (w : Collab) (b : Backup) :
    (prepare cfg w b).b.status.validationErrors =
      (getLocationAndValidate cfg w.locationFound (stampVersionAndExpiration w b).1).errs :=
  rfl

theorem prepare_phase_eq (cfg : Config) (w : Collab) (b : Backup) :
    (prepare cfg w b).b.status.phase =
      (if (getLocationAndValidate cfg w.locationFound (stampVersionAndExpiration w b).1).errs.isEmpty
        then BackupPhase.inProgress else BackupPhase.failedValidation) :=
  rfl

theorem prepare_phase_or (cfg : Config) (w : Collab) (b : Backup) :
    (prepare cfg w b).b.status.phase = BackupPhase.inProgress ∨
    (prepare cfg w b).b.status.phase = BackupPhase.failedValidation := by
  rw [prepare_phase_eq]
  split <;> simp

theorem runBackup_no_tracker (w : Collab) (b : Backup) (ci : Nat) (x y : String) :
    Effect.trackerAdd x y ∉ (runBackup w b ci).effects ∧
    Effect.trackerDelete x y ∉ (runBackup w b ci).effects := by
  simp only [runBackup]
  split_ifs <;> simp

/-! ## C9: BackupTracker registration discipline -/

/-- **C9.** On any reconcile that passes the idempotency gate, the tracker
entry `(ns, name)` is registered iff the first patch succeeded and the
phase chosen by validation was InProgress (so a request ending in
FailedValidation — the only other possible outcome, by `prepare_phase_or`
— is never registered), and the entry is registered iff it is also
removed, i.e. deregistration happens on every path that registered. -/
theorem backupTracker_discipline (cfg : Config) (w : Collab) (b : Backup)
    (hsplit : w.splitOk = true) (hget : w.getResult = some b)
    (hphase : isNewOrEmpty b.status.phase = true) :
    (Effect.trackerAdd b.ns b.name ∈ (processBackup cfg w).effects ↔
      (w.firstPatchOk = true ∧
        (prepare cfg w b).b.status.phase = BackupPhase.inProgress)) ∧
    (Effect.trackerAdd b.ns b.name ∈ (processBackup cfg w).effects ↔
      Effect.trackerDelete b.ns b.name ∈ (processBackup cfg w).effects) := by
  obtain ⟨hns, hname⟩ := prepare_identity cfg w b
  cases hp1 : w.firstPatchOk with
  | false =>
    simp [processBackup, hsplit, hget, hphase, hp1]
  | true =>
    rcases prepare_phase_or cfg w b with hip | hfv
    · have hne : ¬((prepare cfg w b).b.status.phase = BackupPhase.failedValidation) := by
        rw [hip]; simp
      obtain ⟨hnoAdd, hnoDel⟩ :=
        runBackup_no_tracker w (prepare cfg w b).b (prepare cfg w b).ci b.ns b.name
      simp [processBackup, hsplit, hget, hphase, hp1, hne, hip, hns, hname,
        hnoAdd, hnoDel]
    · simp [processBackup, hsplit, hget, hphase, hp1, hfv]

def bC9 : Backup := bSample

def wC9 : Collab := wAllOk bC9

/-- Witness for C9 at a concrete valid request: registered and
deregistered. -/
theorem backupTracker_discipline_witness :
    wC9.splitOk = true ∧ wC9.getResult = some bC9 ∧
    isNewOrEmpty bC9.status.phase = true ∧
    ((Effect.trackerAdd bC9.ns bC9.name ∈ (processBackup cfgSample wC9).effects ↔
        (wC9.firstPatchOk = true ∧
          (prepare cfgSample wC9 bC9).b.status.phase = BackupPhase.inProgress)) ∧
      (Effect.trackerAdd bC9.ns bC9.name ∈ (processBackup cfgSample wC9).effects ↔
        Effect.trackerDelete bC9.ns bC9.name ∈ (processBackup cfgSample wC9).effects)) :=
  ⟨rfl, rfl, rfl, backupTracker_discipline cfgSample wC9 bC9 rfl rfl rfl⟩

/-! ## C4: contradictory include/exclude lists -/

theorem ValidateIncludesExcludes_ne_nil_of_contradictory (i e : List String)
    (h : contradictory i e = true) : ValidateIncludesExcludes i e ≠ [] := by
  intro hnil
  simp only [ValidateIncludesExcludes, List.append_eq_nil] at hnil
  obtain ⟨⟨h1, h2⟩, h3⟩ := hnil
  simp only [contradictory, Bool.or_eq_true] at h
  rcases h with (hX | hY) | hZ
  · obtain ⟨n, hn, hpn⟩ := List.any_eq_true.mp hX
    rw [List.map_eq_nil_iff, List.filter_eq_nil_iff] at h3
    exact h3 n hn hpn
  · rw [if_pos hY] at h1
    exact List.cons_ne_nil _ _ h1
  · rw [if_pos hZ] at h2
    exact List.cons_ne_nil _ _ h2

theorem getLocationAndValidate_errs_ne_nil (cfg : Config) (found : Bool)
    (itm : Backup)
    (hc : contradictory itm.spec.includedResources itm.spec.excludedResources = true ∨
      contradictory itm.spec.includedNamespaces itm.spec.excludedNamespaces = true) :
    (getLocationAndValidate cfg found itm).errs ≠ [] := by
  intro hnil
  have hv : ValidateIncludesExcludes itm.spec.includedResources itm.spec.excludedResources = [] ∧
      ValidateIncludesExcludes itm.spec.includedNamespaces itm.spec.excludedNamespaces = [] := by
    by_cases hsl : itm.spec.storageLocation = "" <;>
      cases found <;>
        simp [getLocationAndValidate, hsl] at hnil <;>
          exact ⟨hnil.1, hnil.2.1⟩
  rcases hc with hc | hc
  · exact ValidateIncludesExcludes_ne_nil_of_contradictory _ _ hc hv.1
  · exact ValidateIncludesExcludes_ne_nil_of_contradictory _ _ hc hv.2

/-- **C4.** If the included/excluded resource lists or the
included/excluded namespace lists are contradictory (same name in both, or
`"*"` together with an explicit name), validation returns at least one
validation error, the phase chosen is FailedValidation, and every patch
this reconcile submits carries phase FailedValidation — never
InProgress. -/
theorem contradictoryLists_failValidation (cfg : Config) (w : Collab) (b : Backup)
    (hsplit : w.splitOk = true) (hget : w.getResult = some b)
    (hphase : isNewOrEmpty b.status.phase = true)
    (hc : contradictory b.spec.includedResources b.spec.excludedResources = true ∨
      contradictory b.spec.includedNamespaces b.spec.excludedNamespaces = true) :
    (prepare cfg w b).b.status.validationErrors ≠ [] ∧
    (prepare cfg w b).b.status.phase = BackupPhase.failedValidation ∧
    ∀ ok o u, Effect.patchSubmitted ok o u ∈ (processBackup cfg w).effects →
      u.status.phase = BackupPhase.failedValidation := by
  have hspec := stamp_spec_eq w b
  have herr : (getLocationAndValidate cfg w.locationFound
      (stampVersionAndExpiration w b).1).errs ≠ [] := by
    apply getLocationAndValidate_errs_ne_nil
    rw [hspec]
    exact hc
  have hfv : (prepare cfg w b).b.status.phase = BackupPhase.failedValidation := by
    rw [prepare_phase_eq, if_neg]
    simp [List.isEmpty_iff, herr]
  refine ⟨by rw [prepare_valErrs_eq]; exact herr, hfv, ?_⟩
  intro ok o u hm
  cases hp1 : w.firstPatchOk <;>
    · simp [processBackup, hsplit, hget, hphase, hp1, hfv] at hm
      rw [hm.2.2]
      exact hfv

def bC4 : Backup :=
  { bSample with spec := { bSample.spec with
      includedResources := ["pods"], excludedResources := ["pods"] } }

def wC4 : Collab := wAllOk bC4

/-- Witness for C4 at a request excluding a resource it also includes. -/
theorem contradictoryLists_failValidation_witness :
    wC4.splitOk = true ∧ wC4.getResult = some bC4 ∧
    isNewOrEmpty bC4.status.phase = true ∧
    contradictory bC4.spec.includedResources bC4.spec.excludedResources = true ∧
    ((prepare cfgSample wC4 bC4).b.status.validationErrors ≠ [] ∧
      (prepare cfgSample wC4 bC4).b.status.phase = BackupPhase.failedValidation ∧
      ∀ ok o u, Effect.patchSubmitted ok o u ∈ (processBackup cfgSample wC4).effects →
        u.status.phase = BackupPhase.failedValidation) :=
  ⟨rfl, rfl, rfl, by decide,
    contradictoryLists_failValidation cfgSample wC4 bC4 rfl rfl rfl (Or.inl (by decide))⟩

/-! ## Shared lemmas about the execution pipeline and the InProgress path -/

theorem runBackup_b_fields (w : Collab) (b : Backup) (ci : Nat) :
    (runBackup w b ci).b.ns = b.ns ∧
    (runBackup w b ci).b.name = b.name ∧
    (runBackup w b ci).b.status.expiration = b.status.expiration ∧
    (runBackup w b ci).b.status.startTimestamp = some (clockAt w ci) := by
  simp only [runBackup]
  split_ifs <;> simp

theorem runBackup_patchFree (w : Collab) (b : Backup) (ci : Nat) :
    (runBackup w b ci).effects.filterMap patchUpdated = [] := by
  simp only [runBackup]
  split_ifs <;> simp [patchUpdated]

theorem runBackup_setup_steps (w : Collab) (b : Backup) (ci : Nat)
    (hs : setupOk w = true) :
    Effect.backupperInvoked ∈ (runBackup w b ci).effects ∧
    Effect.encodeAttempted ∈ (runBackup w b ci).effects ∧
    Effect.statAttempted ∈ (runBackup w b ci).effects ∧
    Effect.logClosed ∈ (runBackup w b ci).effects ∧
    (runBackup w b ci).effects.any isPutBackup = true ∧
    (runBackup w b ci).effects.any isMetricSize = true ∧
    (runBackup w b ci).b.status.completionTimestamp = some (clockAt w (ci + 1)) ∧
    (runBackup w b ci).b.status.phase =
      (if w.backupperOk then BackupPhase.completed else BackupPhase.failed) ∧
    (w.backupperOk = false → (runBackup w b ci).isErr = true) := by
  have hs' : w.logTempFileOk = true ∧ w.backupTempFileOk = true ∧
      w.getActionsOk = true ∧ w.newBackupStoreOk = true := by
    simpa [setupOk, Bool.and_eq_true, and_assoc] using hs
  obtain ⟨hl, hbt, hg, hn⟩ := hs'
  cases hbk : w.backupperOk <;>
    simp [runBackup, isPutBackup, isMetricSize, hl, hbt, hg, hn, hbk]

theorem processBackup_inProgress_eq (cfg : Config) (w : Collab) (b : Backup)
    (hsplit : w.splitOk = true) (hget : w.getResult = some b)
    (hphase : isNewOrEmpty b.status.phase = true) (hp1 : w.firstPatchOk = true)
    (hip : (prepare cfg w b).b.status.phase = BackupPhase.inProgress) :
    processBackup cfg w =
      { retErr := none,
        effects :=
          [Effect.patchSubmitted true b (prepare cfg w b).b,
            Effect.trackerAdd (prepare cfg w b).b.ns (prepare cfg w b).b.name,
            Effect.metricAttempt (getLabel (prepare cfg w b).b "ark-schedule")]
          ++ (runBackup w (prepare cfg w b).b (prepare cfg w b).ci).effects
          ++ [(if (runBackup w (prepare cfg w b).b (prepare cfg w b).ci).isErr then
                  Effect.metricFailed (getLabel (prepare cfg w b).b "ark-schedule")
                else Effect.metricSuccess (getLabel (prepare cfg w b).b "ark-schedule")),
              Effect.patchSubmitted w.secondPatchOk (prepare cfg w b).b
                (if (runBackup w (prepare cfg w b).b (prepare cfg w b).ci).isErr then
                  { (runBackup w (prepare cfg w b).b (prepare cfg w b).ci).b with
                    status := { (runBackup w (prepare cfg w b).b
                        (prepare cfg w b).ci).b.status with
                      phase := BackupPhase.failed } }
                else (runBackup w (prepare cfg w b).b (prepare cfg w b).ci).b),
              Effect.trackerDelete (prepare cfg w b).b.ns (prepare cfg w b).b.name] } := by
  have hne : ¬((prepare cfg w b).b.status.phase = BackupPhase.failedValidation) := by
    rw [hip]; simp
  simp [processBackup, hsplit, hget, hphase, hp1, hne]

theorem finalObject_inProgress (cfg : Config) (w : Collab) (b : Backup)
    (hsplit : w.splitOk = true) (hget : w.getResult = some b)
    (hphase : isNewOrEmpty b.status.phase = true) (hp1 : w.firstPatchOk = true)
    (hip : (prepare cfg w b).b.status.phase = BackupPhase.inProgress) :
    finalObject (processBackup cfg w) =
      some (if (runBackup w (prepare cfg w b).b (prepare cfg w b).ci).isErr then
          { (runBackup w (prepare cfg w b).b (prepare cfg w b).ci).b with
            status := { (runBackup w (prepare cfg w b).b (prepare cfg w b).ci).b.status with
              phase := BackupPhase.failed } }
        else (runBackup w (prepare cfg w b).b (prepare cfg w b).ci).b) := by
  rw [processBackup_inProgress_eq cfg w b hsplit hget hphase hp1 hip]
  cases hre : (runBackup w (prepare cfg w b).b (prepare cfg w b).ci).isErr <;>
    simp [finalObject, patchUpdated, List.filterMap_append,
      runBackup_patchFree, hre]

/-! ## C2: the pipeline never stops reconciliation -/

def bC2 : Backup := bSample

def wC2 : Collab := { wAllOk bC2 with getActionsOk := false }

/-- **C2 counterexample.** A pipeline run whose plugin-action acquisition
fails returns early: the Backupper is never invoked and no upload is
attempted, refuting "it always runs to completion of all its steps" — even
though the attempt metric shows the pipeline was entered and
`processBackup` still returns nil. -/
theorem pipeline_early_return_counterexample :
    (processBackup cfgSample wC2).retErr = none ∧
    (processBackup cfgSample wC2).effects.any isMetricAttempt = true ∧
    Effect.backupperInvoked ∉ (processBackup cfgSample wC2).effects ∧
    (processBackup cfgSample wC2).effects.any isPutBackup = false := by
  decide

/-- **C2 (amended).** The pipeline's error never stops reconciliation:
whenever a reconcile reaches the execution pipeline, `processBackup`
returns nil, whatever the pipeline did; and when the setup steps (temp
files, plugin actions, store) all succeed, the pipeline runs every step
— archive construction, manifest encoding, size accounting, log flushing,
upload and the size metric — to completion. -/
theorem pipeline_never_stops_reconcile (cfg : Config) (w : Collab) (b : Backup)
    (hsplit : w.splitOk = true) (hget : w.getResult = some b)
    (hphase : isNewOrEmpty b.status.phase = true) (hp1 : w.firstPatchOk = true)
    (hip : (prepare cfg w b).b.status.phase = BackupPhase.inProgress) :
    (processBackup cfg w).retErr = none ∧
    (setupOk w = true →
      Effect.backupperInvoked ∈ (processBackup cfg w).effects ∧
      Effect.encodeAttempted ∈ (processBackup cfg w).effects ∧
      Effect.statAttempted ∈ (processBackup cfg w).effects ∧
      Effect.logClosed ∈ (processBackup cfg w).effects ∧
      (processBackup cfg w).effects.any isPutBackup = true ∧
      (processBackup cfg w).effects.any isMetricSize = true) := by
  rw [processBackup_inProgress_eq cfg w b hsplit hget hphase hp1 hip]
  refine ⟨rfl, fun hs => ?_⟩
  obtain ⟨m1, m2, m3, m4, m5, m6, -⟩ :=
    runBackup_setup_steps w (prepare cfg w b).b (prepare cfg w b).ci hs
  simp only [List.mem_append, List.any_append]
  exact ⟨Or.inl (Or.inr m1), Or.inl (Or.inr m2), Or.inl (Or.inr m3),
    Or.inl (Or.inr m4), by simp [m5], by simp [m6]⟩

def bC2w : Backup := bSample

def wC2w : Collab := wAllOk bC2w

/-- Witness for the amended C2 at a fully successful run. -/
theorem pipeline_never_stops_reconcile_witness :
    wC2w.splitOk = true ∧ wC2w.getResult = some bC2w ∧
    isNewOrEmpty bC2w.status.phase = true ∧ wC2w.firstPatchOk = true ∧
    (prepare cfgSample wC2w bC2w).b.status.phase = BackupPhase.inProgress ∧
    ((processBackup cfgSample wC2w).retErr = none ∧
      (setupOk wC2w = true →
        Effect.backupperInvoked ∈ (processBackup cfgSample wC2w).effects ∧
        Effect.encodeAttempted ∈ (processBackup cfgSample wC2w).effects ∧
        Effect.statAttempted ∈ (processBackup cfgSample wC2w).effects ∧
        Effect.logClosed ∈ (processBackup cfgSample wC2w).effects ∧
        (processBackup cfgSample wC2w).effects.any isPutBackup = true ∧
        (processBackup cfgSample wC2w).effects.any isMetricSize = true)) :=
  ⟨rfl, rfl, rfl, rfl, by decide,
    pipeline_never_stops_reconcile cfgSample wC2w bC2w rfl rfl rfl rfl (by decide)⟩

/-! ## C5: Backupper failure does not short-circuit the pipeline -/

/-- **C5.** When the pipeline reaches the Backupper (setup succeeded) and
the Backupper returns an error, the remaining steps still execute —
manifest encoding, size accounting (stat), log flushing, and the
`PutBackup` upload are all attempted — `processBackup` still returns nil,
and the terminal object patched into the cluster state has phase Failed
(never InProgress or Completed) with its completion timestamp stamped. -/
theorem backupperFailure_continues_and_fails (cfg : Config) (w : Collab) (b : Backup)
    (hsplit : w.splitOk = true) (hget : w.getResult = some b)
    (hphase : isNewOrEmpty b.status.phase = true) (hp1 : w.firstPatchOk = true)
    (hip : (prepare cfg w b).b.status.phase = BackupPhase.inProgress)
    (hs : setupOk w = true) (hbk : w.backupperOk = false) :
    (processBackup cfg w).retErr = none ∧
    Effect.encodeAttempted ∈ (processBackup cfg w).effects ∧
    Effect.statAttempted ∈ (processBackup cfg w).effects ∧
    Effect.logClosed ∈ (processBackup cfg w).effects ∧
    (processBackup cfg w).effects.any isPutBackup = true ∧
    ∃ f, finalObject (processBackup cfg w) = some f ∧
      f.status.phase = BackupPhase.failed ∧
      f.status.completionTimestamp.isSome = true := by
  obtain ⟨m1, m2, m3, m4, m5, m6, hcomp, hph, himp⟩ :=
    runBackup_setup_steps w (prepare cfg w b).b (prepare cfg w b).ci hs
  have hre := himp hbk
  have hfin := finalObject_inProgress cfg w b hsplit hget hphase hp1 hip
  rw [hre] at hfin
  simp only [if_true] at hfin
  refine ⟨?_, ?_, ?_, ?_, ?_, ?_⟩
  · rw [processBackup_inProgress_eq cfg w b hsplit hget hphase hp1 hip]
  · rw [processBackup_inProgress_eq cfg w b hsplit hget hphase hp1 hip]
    simp only [List.mem_append]
    exact Or.inl (Or.inr m2)
  · rw [processBackup_inProgress_eq cfg w b hsplit hget hphase hp1 hip]
    simp only [List.mem_append]
    exact Or.inl (Or.inr m3)
  · rw [processBackup_inProgress_eq cfg w b hsplit hget hphase hp1 hip]
    simp only [List.mem_append]
    exact Or.inl (Or.inr m4)
  · rw [processBackup_inProgress_eq cfg w b hsplit hget hphase hp1 hip]
    simp only [List.any_append]
    simp [m5]
  · refine ⟨_, hfin, rfl, ?_⟩
    simp [hcomp]

def bC5 : Backup := bSample

def wC5 : Collab := { wAllOk bC5 with backupperOk := false }

/-- Witness for C5: a run where only the Backupper fails. -/
theorem backupperFailure_continues_and_fails_witness :
    wC5.splitOk = true ∧ wC5.getResult = some bC5 ∧
    isNewOrEmpty bC5.status.phase = true ∧ wC5.firstPatchOk = true ∧
    (prepare cfgSample wC5 bC5).b.status.phase = BackupPhase.inProgress ∧
    setupOk wC5 = true ∧ wC5.backupperOk = false ∧
    ((processBackup cfgSample wC5).retErr = none ∧
      Effect.encodeAttempted ∈ (processBackup cfgSample wC5).effects ∧
      Effect.statAttempted ∈ (processBackup cfgSample wC5).effects ∧
      Effect.logClosed ∈ (processBackup cfgSample wC5).effects ∧
      (processBackup cfgSample wC5).effects.any isPutBackup = true ∧
      ∃ f, finalObject (processBackup cfgSample wC5) = some f ∧
        f.status.phase = BackupPhase.failed ∧
        f.status.completionTimestamp.isSome = true) :=
  ⟨rfl, rfl, rfl, rfl, by decide, rfl, rfl,
    backupperFailure_continues_and_fails cfgSample wC5 bC5 rfl rfl rfl rfl
      (by decide) rfl rfl⟩

/-! ## C10: the manifest's phase is decided by the Backupper alone -/

/-- **C10.** When the pipeline reaches the Backupper (setup succeeded) and
manifest encoding succeeds, the phase inside the uploaded manifest is
Completed iff the Backupper returned no error and Failed otherwise — for
every outcome of the later stat and upload steps — even though a stat or
upload failure still makes the pipeline's aggregate result an error (so
the cluster-state status ends Failed). -/
theorem manifestPhase_by_backupper (w : Collab) (b : Backup) (ci : Nat)
    (hs : setupOk w = true) (he : w.encodeOk = true) :
    manifestPhase (runBackup w b ci).effects =
      some (if w.backupperOk then BackupPhase.completed else BackupPhase.failed) ∧
    (w.statOk = false → (runBackup w b ci).isErr = true) ∧
    (w.putBackupOk = false → (runBackup w b ci).isErr = true) := by
  have hs' : w.logTempFileOk = true ∧ w.backupTempFileOk = true ∧
      w.getActionsOk = true ∧ w.newBackupStoreOk = true := by
    simpa [setupOk, Bool.and_eq_true, and_assoc] using hs
  obtain ⟨hl, hbt, hg, hn⟩ := hs'
  cases hbk : w.backupperOk <;> cases hst : w.statOk <;>
    cases hpb : w.putBackupOk <;>
      simp [runBackup, manifestPhase, hl, hbt, hg, hn, hbk, hst, hpb, he]

def bC10 : Backup := bSample

def wC10 : Collab := { wAllOk bC10 with statOk := false, putBackupOk := false }

/-- Witness for C10: stat and upload fail, yet the manifest phase is
Completed because the Backupper succeeded. -/
theorem manifestPhase_by_backupper_witness :
    setupOk wC10 = true ∧ wC10.encodeOk = true ∧
    (manifestPhase (runBackup wC10 bC10 1).effects =
        some (if wC10.backupperOk then BackupPhase.completed else BackupPhase.failed) ∧
      (wC10.statOk = false → (runBackup wC10 bC10 1).isErr = true) ∧
      (wC10.putBackupOk = false → (runBackup wC10 bC10 1).isErr = true)) :=
  ⟨rfl, rfl, manifestPhase_by_backupper wC10 bC10 1 rfl rfl⟩

/-! ## C3: expiration stamping -/

theorem getLocationAndValidate_status (cfg : Config) (found : Bool) (itm : Backup) :
    (getLocationAndValidate cfg found itm).itm.status = itm.status := by
  by_cases hsl : itm.spec.storageLocation = "" <;>
    cases found <;> simp [getLocationAndValidate, hsl]

theorem prepare_expiration (cfg : Config) (w : Collab) (b : Backup)
    (httl : b.spec.ttl > 0) :
    (prepare cfg w b).b.status.expiration = some (clockAt w 0 + b.spec.ttl) ∧
    (prepare cfg w b).ci = 1 := by
  have h0 : (prepare cfg w b).b.status.expiration =
      (getLocationAndValidate cfg w.locationFound
        (stampVersionAndExpiration w b).1).itm.status.expiration := rfl
  have h1 : (prepare cfg w b).ci = (stampVersionAndExpiration w b).2 := rfl
  rw [h0, getLocationAndValidate_status, h1]
  constructor <;> simp [stampVersionAndExpiration, httl]

def bC3 : Backup := bSample

def wC3 : Collab := wAllOk bC3

/-- **C3 counterexample.** A fully successful reconcile of a request with
TTL 100 and clock readings 0, 1, 2: the terminal object has
expiration = 100 (first clock reading + TTL) but startTimestamp = 1
(second clock reading), so expiration ≠ startTimestamp + TTL. -/
theorem expiration_claim_counterexample :
    ((finalObject (processBackup cfgSample wC3)).map
        (fun f => f.status.expiration)) = some (some 100) ∧
    ((finalObject (processBackup cfgSample wC3)).map
        (fun f => f.status.startTimestamp)) = some (some 1) ∧
    ((finalObject (processBackup cfgSample wC3)).map
        (fun f => f.spec.ttl)) = some 100 ∧
    some (100 : Int) ≠ some ((1 : Int) + 100) := by
  decide

/-- **C3 (amended).** For TTL > 0 on a reconcile that reaches execution,
`status.expiration` equals the clock reading taken at the stamping step
(before validation) plus TTL; it is stamped exactly once — the pipeline
and the terminal patch leave it unchanged — while `startTimestamp` is
stamped later, from the next clock reading, so expiration equals
startTimestamp + TTL only when the two readings coincide. -/
theorem expiration_stamped_once (cfg : Config) (w : Collab) (b : Backup)
    (hsplit : w.splitOk = true) (hget : w.getResult = some b)
    (hphase : isNewOrEmpty b.status.phase = true) (httl : b.spec.ttl > 0)
    (hp1 : w.firstPatchOk = true)
    (hip : (prepare cfg w b).b.status.phase = BackupPhase.inProgress) :
    (prepare cfg w b).b.status.expiration = some (clockAt w 0 + b.spec.ttl) ∧
    ∃ f, finalObject (processBackup cfg w) = some f ∧
      f.status.expiration = some (clockAt w 0 + b.spec.ttl) ∧
      f.status.startTimestamp = some (clockAt w 1) := by
  obtain ⟨hexp, hci⟩ := prepare_expiration cfg w b httl
  have hfin := finalObject_inProgress cfg w b hsplit hget hphase hp1 hip
  rw [hci] at hfin
  obtain ⟨-, -, hrexp, hrstart⟩ := runBackup_b_fields w (prepare cfg w b).b 1
  refine ⟨hexp, ?_⟩
  cases hre : (runBackup w (prepare cfg w b).b 1).isErr <;>
    rw [hre] at hfin <;> simp at hfin
  · exact ⟨_, hfin, hrexp.trans hexp, hrstart⟩
  · exact ⟨_, hfin, hrexp.trans hexp, hrstart⟩

def bC3w : Backup := bSample

def wC3w : Collab := wAllOk bC3w

/-- Witness for the amended C3 at a concrete run. -/
theorem expiration_stamped_once_witness :
    wC3w.splitOk = true ∧ wC3w.getResult = some bC3w ∧
    isNewOrEmpty bC3w.status.phase = true ∧ bC3w.spec.ttl > 0 ∧
    wC3w.firstPatchOk = true ∧
    (prepare cfgSample wC3w bC3w).b.status.phase = BackupPhase.inProgress ∧
    ((prepare cfgSample wC3w bC3w).b.status.expiration =
        some (clockAt wC3w 0 + bC3w.spec.ttl) ∧
      ∃ f, finalObject (processBackup cfgSample wC3w) = some f ∧
        f.status.expiration = some (clockAt wC3w 0 + bC3w.spec.ttl) ∧
        f.status.startTimestamp = some (clockAt wC3w 1)) :=
  ⟨rfl, rfl, rfl, by decide, rfl, by decide,
    expiration_stamped_once cfgSample wC3w bC3w rfl rfl rfl (by decide) rfl (by decide)⟩

end Ark

